import Mathlib

/-!
Verification of the record normalization and ingestion pipeline of
`src/app.py` (a Streamlit call-record CRM).

Modelling conventions for the shallow embedding:
* Parsed JSON values (the result of Python's `json.load`) are modelled by the
  inductive type `JVal`.  Python/JSON numbers are modelled as rationals `ℚ`;
  IEEE-754 rounding is abstracted away (every numeric literal appearing in the
  claims is treated exactly).
* Python dicts produced by `json.load` are modelled as association lists with
  distinct keys; `dict.get` is first-match lookup.
* Python's `float(x)` coercion is modelled by `pyFloat` / `parseFloat`:
  sign, integer part and optional fractional part.  Exotic accepted forms
  (exponents, surrounding whitespace, underscores, `inf`, `nan`) are outside
  the inputs considered by the spec and are abstracted as parse failures.
* `datetime.now().isoformat()` is modelled by threading an arbitrary
  timestamp string `now` through each ingestion operation.
* Streamlit session state `st.session_state.call_records` is the explicit
  `List CallRecord` each operation takes and returns.
* Errors: the shape-dispatch `st.error("Invalid JSON format")` branch is
  `JsonImportError.formatError`; every exception raised inside the import
  loop and caught by the generic `except Exception` handler is
  `JsonImportError.processingError`.
-/

/-- A parsed JSON value (result of Python's `json.load`). -/
inductive JVal where
  | jNull
  | jBool (b : Bool)
  | jNum (q : ℚ)
  | jStr (s : String)
  | jArr (xs : List JVal)
  | jObj (fs : List (String × JVal))

/-- Python `dict` key lookup returning `none` when the key is absent
(`key in d` / `d[key]` on an association list with distinct keys). -/
def getKey : List (String × JVal) → String → Option JVal
  | [], _ => none
  | (k, v) :: rest, key => if k = key then some v else getKey rest key

/-- Python `record.get(key, default)`. -/
def getD (fs : List (String × JVal)) (key : String) (default : JVal) : JVal :=
  (getKey fs key).getD default

/-- Digit list to natural number, most significant first. -/
def digitsToNat (cs : List Char) : Nat :=
  cs.foldl (fun a c => a * 10 + (c.toNat - 48)) 0

/-- All characters are decimal digits. -/
def allDigits (cs : List Char) : Bool :=
  cs.all fun c => c.isDigit

/-- Decimal-string recognizer for Python `float(s)`: optional sign, decimal
digits, optional single dot; at least one digit overall.  Returns the signed
mantissa and the number of fractional digits, so `"-12.5"` gives `(-125, 1)`,
or `none` when Python would raise `ValueError`.  Kept over `Int × Nat` so that
it is kernel-computable (`ℚ` arithmetic is introduced only in `parseFloat`). -/
def parseFloatParts (s : String) : Option (Int × Nat) :=
  let cs := s.data
  let body : List Char :=
    if cs.head? = some '-' ∨ cs.head? = some '+' then cs.tail else cs
  let sgn : Int := if cs.head? = some '-' then -1 else 1
  let intPart := body.takeWhile (fun c => c ≠ '.')
  let rest := body.dropWhile (fun c => c ≠ '.')
  let frac := rest.tail
  if rest = [] then
    if intPart ≠ [] ∧ allDigits intPart then
      some (sgn * (digitsToNat intPart : Int), 0)
    else none
  else
    if (intPart ≠ [] ∨ frac ≠ []) ∧ allDigits intPart ∧ allDigits frac then
      some (sgn * ((digitsToNat intPart : Int) * (10 : Int) ^ frac.length
        + (digitsToNat frac : Int)), frac.length)
    else none

/-- Python `float(s)` on a string, as a rational: `none` is `ValueError`. -/
def parseFloat (s : String) : Option ℚ :=
  (parseFloatParts s).map fun p => (p.1 : ℚ) / (10 : ℚ) ^ p.2

/-- Python `float(x)` on an arbitrary value: numbers pass through, strings are
parsed, booleans coerce to 0/1; `None`, lists and dicts raise `TypeError`
(modelled as `none`). -/
def pyFloat : JVal → Option ℚ
  | .jNum q => some q
  | .jStr s => parseFloat s
  | .jBool b => some (if b then 1 else 0)
  | _ => none

/-- Provenance tag of a record (`source` field). -/
inductive Source where
  | manual
  | json_upload
  | google_sheets
deriving DecidableEq

/-- The canonical call record held in `st.session_state.call_records`.
The JSON import path stores raw values unconverted, so the string-like fields
carry `JVal`; `cost` always passes through `float(...)` (or a numeric widget)
and is a number, `added_at` is always an `isoformat` string and `source` one
of the three tags. -/
structure CallRecord where
  transcript : JVal
  recording_url : JVal
  call_summary : JVal
  cost : ℚ
  customer_number : JVal
  started_at : JVal
  ended_at : JVal
  call_id : JVal
  added_at : String
  source : Source

/-- Python `f"{n:04d}"`: decimal rendering left-padded with zeros to width 4. -/
def zpad4 (n : Nat) : String :=
  let s := toString n
  if s.length ≥ 4 then s
  else String.mk (List.replicate (4 - s.length) '0') ++ s

/-- Manual form submission (`add_call_form`, app.py lines 77-90): builds the
record from the eight widget values and appends it to the collection.
`call_id` is generated from the current collection size when the submitted
one is empty (Python truthiness of a string). -/
def addManual (transcript recording_url call_summary : String) (cost : ℚ)
    (customer_number started_at ended_at call_id : String)
    (coll : List CallRecord) (now : String) : List CallRecord :=
  coll ++ [{ transcript := .jStr transcript
             recording_url := .jStr recording_url
             call_summary := .jStr call_summary
             cost := cost
             customer_number := .jStr customer_number
             started_at := .jStr started_at
             ended_at := .jStr ended_at
             call_id := .jStr (if call_id = "" then
                 "ID" ++ zpad4 (coll.length + 1) else call_id)
             added_at := now
             source := .manual }]

/-- Error outcomes of the JSON upload section (app.py lines 102-146):
`formatError` is the shape-dispatch branch `st.error("Invalid JSON format")`,
`processingError` is any exception raised while building records and caught by
the trailing generic `except Exception` handler. -/
inductive JsonImportError where
  | formatError
  | processingError
deriving DecidableEq

/-- Shape dispatch of the JSON upload (app.py lines 108-119): a list is used
directly; a dict with a `records` key contributes that key's value (whatever
it is); any other dict is wrapped as a single record; any other shape is the
`st.error("Invalid JSON format")` branch. -/
def dispatchJson (doc : JVal) : Except JsonImportError JVal :=
  match doc with
  | .jArr _ => .ok doc
  | .jObj fs =>
      match getKey fs "records" with
      | some v => .ok v
      | none => .ok (.jArr [doc])
  | _ => .error .formatError

/-- Python `for record in records_to_add`: lists yield their elements, strings
their one-character substrings, dicts their keys; numbers, booleans and `None`
raise `TypeError` (caught by the generic handler). -/
def pyIter : JVal → Except JsonImportError (List JVal)
  | .jArr xs => .ok xs
  | .jStr s => .ok (s.data.map fun c => .jStr (String.mk [c]))
  | .jObj fs => .ok (fs.map fun kv => .jStr kv.1)
  | _ => .error .processingError

/-- One iteration of the import loop body (app.py lines 125-136): builds
`formatted_record` from `record` with get-with-default reads.  `collLen` is
`len(st.session_state.call_records)` at this point of the loop and
`importedCount` the loop counter.  A non-dict `record` raises
`AttributeError` at the first `.get`, and `float(...)` of a present
non-numeric `cost` raises; both land in the generic handler. -/
def normalizeJsonRecord (record : JVal) (collLen importedCount : Nat)
    (now : String) : Except JsonImportError CallRecord :=
  match record with
  | .jObj fs =>
      match pyFloat (getD fs "cost" (.jNum 0)) with
      | none => .error .processingError
      | some q =>
          .ok { transcript := getD fs "transcript" (.jStr "")
                recording_url := getD fs "recording_url" (.jStr "")
                call_summary := getD fs "call_summary" (.jStr "")
                cost := q
                customer_number := getD fs "customer_number" (.jStr "")
                started_at := getD fs "started_at" (.jStr "")
                ended_at := getD fs "ended_at" (.jStr "")
                call_id := getD fs "call_id"
                  (.jStr ("JSON" ++ zpad4 (collLen + importedCount + 1)))
                added_at := now
                source := .json_upload }
  | _ => .error .processingError

/-- The import loop (app.py lines 122-138): each formatted record is appended
to the session collection immediately; an exception stops the loop, leaving
the records appended so far in place (the generic handler only reports). -/
def importLoop (rawRecords : List JVal) (coll : List CallRecord)
    (importedCount : Nat) (now : String) :
    List CallRecord × Option JsonImportError :=
  match rawRecords with
  | [] => (coll, none)
  | r :: rest =>
      match normalizeJsonRecord r coll.length importedCount now with
      | .error e => (coll, some e)
      | .ok rec => importLoop rest (coll ++ [rec]) (importedCount + 1) now

/-- The whole `Import JSON Records` action on a parsed document: shape
dispatch, then iteration of `records_to_add`, then the import loop.  Returns
the final collection and the error reported to the user, if any. -/
def importJson (doc : JVal) (coll : List CallRecord) (now : String) :
    List CallRecord × Option JsonImportError :=
  match dispatchJson doc with
  | .error e => (coll, some e)
  | .ok v =>
      match pyIter v with
      | .error e => (coll, some e)
      | .ok rs => importLoop rs coll 0 now

/-- A cell of the DataFrame obtained from `pd.read_csv` of the sheet export:
a string, a number, or a missing value (`NaN`). -/
inductive Cell where
  | cStr (s : String)
  | cNum (q : ℚ)
  | cNaN

/-- A DataFrame row as a string-keyed mapping (column name to cell). -/
def Row := List (String × Cell)

/-- Pandas `row.get(key)` with default `None`: `none` when the column is
absent. -/
def rowGet : Row → String → Option Cell
  | [], _ => none
  | (k, v) :: rest, key => if k = key then some v else rowGet rest key

/-- The nested read `row.get(primary, row.get(fallback, default))` used for
alias resolution, before the default is applied. -/
def aliasGet (row : Row) (primary fallback : String) : Option Cell :=
  match rowGet row primary with
  | some c => some c
  | none => rowGet row fallback

/-- `pd.notna` on the result of an optional read: false for a missing column
(`None`) and for a `NaN` cell. -/
def notna : Option Cell → Bool
  | none => false
  | some .cNaN => false
  | some _ => true

/-- Python `str(cell)`.  Strings pass through; `NaN` prints as `"nan"`; the
numeric rendering abstracts Python's float `repr` by the rational's `repr`
(no theorem below depends on the numeric case). -/
def pyStrCell : Cell → String
  | .cStr s => s
  | .cNum q => toString q
  | .cNaN => "nan"

/-- `str(row.get(primary, row.get(fallback, "")))`: the string default applies
when both columns are absent. -/
def cellStrD (c : Option Cell) : String :=
  match c with
  | some cell => pyStrCell cell
  | none => ""

/-- Python `float(cell)` on a DataFrame cell.  `float` of a `NaN` cell is not
a rational; that case is modelled as `none` but is unreachable below because
it is guarded by `pd.notna`. -/
def pyFloatCell : Cell → Option ℚ
  | .cStr s => parseFloat s
  | .cNum q => some q
  | .cNaN => none

/-- The `cost` expression of `convert_sheets_to_records` (app.py line 50):
`float(row.get("cost", row.get("call_cost", 0.0))) if
pd.notna(row.get("cost", row.get("call_cost"))) else 0.0`.
`Except.error` is the uncaught `ValueError` of `float` on a present
non-numeric value. -/
def sheetCost (row : Row) : Except Unit ℚ :=
  let c := aliasGet row "cost" "call_cost"
  if notna c then
    match c with
    | some cell =>
        match pyFloatCell cell with
        | some q => .ok q
        | none => .error ()
    | none => .error ()
  else .ok 0

/-- One row of `convert_sheets_to_records` (app.py lines 44-58): alias-resolved
get-with-default reads wrapped in `str(...)`, the `cost` coercion above, a
generated `call_id` from the number of records built so far in this batch, and
the fixed provenance tag.  The `ValueError` of the `cost` coercion propagates
(there is no handler in the function). -/
def normalizeSheetRow (row : Row) (recordsSoFar : Nat) (now : String) :
    Except Unit CallRecord :=
  match sheetCost row with
  | .error e => .error e
  | .ok q =>
      .ok { transcript := .jStr (cellStrD (aliasGet row "transcript" "call_summary"))
            recording_url := .jStr (cellStrD (rowGet row "recording_url"))
            call_summary := .jStr (cellStrD (rowGet row "call_summary"))
            cost := q
            customer_number := .jStr (cellStrD (aliasGet row "customer_number" "phone number"))
            started_at := .jStr (cellStrD (aliasGet row "started_at" "call_start_time"))
            ended_at := .jStr (cellStrD (aliasGet row "ended_at" "call_end_time"))
            call_id := .jStr (match rowGet row "call_id" with
              | some c => pyStrCell c
              | none => "SHEET" ++ zpad4 (recordsSoFar + 1))
            added_at := now
            source := .google_sheets }

/-- Helper loop of `convert_sheets_to_records` accumulating the built
records. -/
def convertSheetsLoop (rows : List Row) (acc : List CallRecord)
    (now : String) : Except Unit (List CallRecord) :=
  match rows with
  | [] => .ok acc
  | row :: rest =>
      match normalizeSheetRow row acc.length now with
      | .error e => .error e
      | .ok rec => convertSheetsLoop rest (acc ++ [rec]) now

/-- `convert_sheets_to_records` (app.py lines 41-59): builds the batch list;
a `ValueError` in any row aborts the whole conversion (the local `records`
list is discarded, nothing reaches the session collection). -/
def convert_sheets_to_records (rows : List Row) (now : String) :
    Except Unit (List CallRecord) :=
  convertSheetsLoop rows [] now

/-- A raw JSON record on which the loop body succeeds: a dict whose `cost`
value (default `0.0`) survives `float(...)`. -/
def jsonRecordOk : JVal → Bool
  | .jObj fs => (pyFloat (getD fs "cost" (.jNum 0))).isSome
  | _ => false

lemma normalizeJsonRecord_ok (r : JVal) (L c : Nat) (now : String)
    (h : jsonRecordOk r = true) :
    ∃ rec, normalizeJsonRecord r L c now = .ok rec := by
  cases r with
  | jObj fs =>
      cases hq : pyFloat (getD fs "cost" (.jNum 0)) with
      | none => rw [jsonRecordOk, hq] at h; simp at h
      | some q =>
          exact ⟨{ transcript := getD fs "transcript" (.jStr "")
                   recording_url := getD fs "recording_url" (.jStr "")
                   call_summary := getD fs "call_summary" (.jStr "")
                   cost := q
                   customer_number := getD fs "customer_number" (.jStr "")
                   started_at := getD fs "started_at" (.jStr "")
                   ended_at := getD fs "ended_at" (.jStr "")
                   call_id := getD fs "call_id"
                     (.jStr ("JSON" ++ zpad4 (L + c + 1)))
                   added_at := now
                   source := .json_upload },
                 by simp only [normalizeJsonRecord, hq]⟩
  | jNull => simp [jsonRecordOk] at h
  | jBool b => simp [jsonRecordOk] at h
  | jNum q => simp [jsonRecordOk] at h
  | jStr s => simp [jsonRecordOk] at h
  | jArr xs => simp [jsonRecordOk] at h

lemma normalizeJsonRecord_fail (r : JVal) (L c : Nat) (now : String)
    (h : jsonRecordOk r = false) :
    normalizeJsonRecord r L c now = .error .processingError := by
  cases r with
  | jObj fs =>
      cases hq : pyFloat (getD fs "cost" (.jNum 0)) with
      | none => simp [normalizeJsonRecord, hq]
      | some q => rw [jsonRecordOk, hq] at h; simp at h
  | jNull => rfl
  | jBool b => rfl
  | jNum q => rfl
  | jStr s => rfl
  | jArr xs => rfl

lemma importLoop_cons_ok (r : JVal) (rest : List JVal)
    (coll : List CallRecord) (c : Nat) (now : String) (rec : CallRecord)
    (hrec : normalizeJsonRecord r coll.length c now = .ok rec) :
    importLoop (r :: rest) coll c now
      = importLoop rest (coll ++ [rec]) (c + 1) now := by
  simp [importLoop, hrec]

lemma importLoop_cons_err (r : JVal) (rest : List JVal)
    (coll : List CallRecord) (c : Nat) (now : String) (e : JsonImportError)
    (hrec : normalizeJsonRecord r coll.length c now = .error e) :
    importLoop (r :: rest) coll c now = (coll, some e) := by
  simp [importLoop, hrec]

lemma take_of_take_append (coll : List CallRecord) (rec : CallRecord)
    (l : List CallRecord)
    (h : l.take (coll ++ [rec]).length = coll ++ [rec]) :
    l.take coll.length = coll := by
  have h1 : coll.length ≤ (coll ++ [rec]).length := by simp
  rw [show coll.length = min coll.length (coll ++ [rec]).length by simp,
    ← List.take_take, h]
  simp

lemma importLoop_all_ok (rs : List JVal) (coll : List CallRecord) (c : Nat)
    (now : String) (h : ∀ r ∈ rs, jsonRecordOk r = true) :
    (importLoop rs coll c now).2 = none ∧
    (importLoop rs coll c now).1.length = coll.length + rs.length ∧
    (importLoop rs coll c now).1.take coll.length = coll := by
  induction rs generalizing coll c with
  | nil => simp [importLoop]
  | cons r rest ih =>
      obtain ⟨rec, hrec⟩ := normalizeJsonRecord_ok r coll.length c now
        (h r (by simp))
      have ih' := ih (coll ++ [rec]) (c + 1) fun x hx => h x (by simp [hx])
      rw [importLoop_cons_ok r rest coll c now rec hrec]
      refine ⟨ih'.1, ?_, take_of_take_append coll rec _ ih'.2.2⟩
      rw [ih'.2.1]; simp; omega

lemma importLoop_partial_fail (good : List JVal) (bad : JVal)
    (rest : List JVal) (coll : List CallRecord) (c : Nat) (now : String)
    (hgood : ∀ r ∈ good, jsonRecordOk r = true)
    (hbad : jsonRecordOk bad = false) :
    (importLoop (good ++ bad :: rest) coll c now).2 = some .processingError ∧
    (importLoop (good ++ bad :: rest) coll c now).1.length
      = coll.length + good.length ∧
    (importLoop (good ++ bad :: rest) coll c now).1.take coll.length = coll := by
  induction good generalizing coll c with
  | nil =>
      have hfail := normalizeJsonRecord_fail bad coll.length c now hbad
      rw [List.nil_append,
        importLoop_cons_err bad rest coll c now .processingError hfail]
      simp
  | cons r rest' ih =>
      obtain ⟨rec, hrec⟩ := normalizeJsonRecord_ok r coll.length c now
        (hgood r (by simp))
      have ih' := ih (coll ++ [rec]) (c + 1) fun x hx => hgood x (by simp [hx])
      rw [List.cons_append,
        importLoop_cons_ok r (rest' ++ bad :: rest) coll c now rec hrec]
      refine ⟨ih'.1, ?_, take_of_take_append coll rec _ ih'.2.2⟩
      rw [ih'.2.1]; simp; omega

example : zpad4 1 = "0001" := by rfl
example : zpad4 12345 = "12345" := by rfl
example : parseFloatParts "9.99" = some (999, 2) := by decide
example : parseFloatParts "abc" = none := by decide
example : parseFloatParts "-12.5" = some (-125, 1) := by decide
example : parseFloatParts "" = none := by decide
example : parseFloatParts "+15550100" = some (15550100, 0) := by decide
example : parseFloat "9.99" = some (999 / 100 : ℚ) := by
  have h : parseFloatParts "9.99" = some (999, 2) := by decide
  simp [parseFloat, h]
  norm_num

/-- A concrete record standing for preexisting collection content in the
counterexamples below. -/
def sampleRecord : CallRecord :=
  { transcript := .jStr "", recording_url := .jStr "", call_summary := .jStr ""
    cost := 0, customer_number := .jStr "", started_at := .jStr ""
    ended_at := .jStr "", call_id := .jStr "X", added_at := "T0"
    source := .manual }

/-- C1, counterexample: with one record already in the collection, importing
the bare object `{"transcript":"hello"}` generates the id `"JSON0002"`, not
`"JSON0001"`, because the generator uses
`len(st.session_state.call_records) + imported_count + 1`. -/
theorem claim1_counterexample :
    ((importJson (.jObj [("transcript", .jStr "hello")]) [sampleRecord]
        "T").1.map CallRecord.call_id) = [.jStr "X", .jStr "JSON0002"] ∧
    JVal.jStr "JSON0002" ≠ JVal.jStr "JSON0001" := by
  constructor
  · simp [importJson, dispatchJson, pyIter, importLoop, normalizeJsonRecord,
      getD, getKey, pyFloat, sampleRecord, show zpad4 2 = "0002" from rfl]
  · simp

/-- C1, amended: a JSON record lacking `call_id` gets the generated id
`"JSON" + zero-padded(collection length at that loop step + records already
imported in this batch + 1, width 4)`; the id therefore depends on how many
records are already in the collection, and the bare object
`{"transcript":"hello"}` yields `"JSON0001"` exactly when the collection is
empty. -/
theorem claim1_theorem :
    (∀ fs L c now, getKey fs "call_id" = none →
      jsonRecordOk (.jObj fs) = true →
      (normalizeJsonRecord (.jObj fs) L c now).map CallRecord.call_id
        = .ok (.jStr ("JSON" ++ zpad4 (L + c + 1)))) ∧
    (∀ now, ((importJson (.jObj [("transcript", .jStr "hello")]) []
        now).1.map CallRecord.call_id) = [.jStr "JSON0001"]) := by
  constructor
  · intro fs L c now hid hok
    cases hq : pyFloat (getD fs "cost" (.jNum 0)) with
    | none => rw [jsonRecordOk, hq] at hok; simp at hok
    | some q =>
        simp only [normalizeJsonRecord, hq]
        simp [getD, hid, Except.map]
  · intro now
    simp [importJson, dispatchJson, pyIter, importLoop, normalizeJsonRecord,
      getD, getKey, pyFloat, show zpad4 1 = "0001" from rfl]

/-- C1, witness: the amended generation rule applied with collection length 1
and batch offset 0 yields `"JSON0002"`. -/
theorem claim1_witness :
    (normalizeJsonRecord (.jObj [("transcript", .jStr "hello")]) 1 0 "T").map
      CallRecord.call_id = .ok (.jStr "JSON0002") := by
  have h := claim1_theorem.1 [("transcript", .jStr "hello")] 1 0 "T" rfl rfl
  simpa [show zpad4 2 = "0002" from rfl] using h

/-- C2, counterexample: a record whose `cost` is present but non-numeric
(`{"call_id":"A","cost":"abc"}`) fails normalization on the JSON path —
`float("abc")` raises and the exception is caught by the generic handler —
contradicting the claim that field-level coercion issues are never fatal. -/
theorem claim2_counterexample :
    normalizeJsonRecord (.jObj [("call_id", .jStr "A"), ("cost", .jStr "abc")])
      0 0 "T" = .error .processingError := by
  simp [normalizeJsonRecord, getD, getKey, pyFloat, parseFloat,
    show parseFloatParts "abc" = none from by decide]

/-- C2, amended: absent optional fields never cause a record's normalization
to fail — string fields default to the empty string and an absent `cost`
defaults to 0.0, per field, per record, on both batch paths — but a present
non-numeric `cost` value raises a coercion error that fails the record's
normalization on the JSON path as well as on the tabular path. -/
theorem claim2_theorem :
    (∀ L c now, (normalizeJsonRecord (.jObj []) L c now).map
        (fun r => (r.transcript, r.recording_url, r.call_summary, r.cost,
          r.customer_number, r.started_at, r.ended_at))
      = .ok (.jStr "", .jStr "", .jStr "", (0 : ℚ), .jStr "", .jStr "",
          .jStr "")) ∧
    (∀ i now, (normalizeSheetRow [] i now).map
        (fun r => (r.transcript, r.cost)) = .ok (.jStr "", (0 : ℚ))) ∧
    (∀ fs L c now s, getKey fs "cost" = some (.jStr s) → parseFloat s = none →
      normalizeJsonRecord (.jObj fs) L c now = .error .processingError) ∧
    (∀ row i now s, aliasGet row "cost" "call_cost" = some (.cStr s) →
      parseFloat s = none → normalizeSheetRow row i now = .error ()) := by
  refine ⟨?_, ?_, ?_, ?_⟩
  · intro L c now
    simp [normalizeJsonRecord, getD, getKey, pyFloat, Except.map]
  · intro i now
    simp [normalizeSheetRow, sheetCost, aliasGet, rowGet, notna, cellStrD,
      Except.map]
  · intro fs L c now s hc hp
    have h1 : getD fs "cost" (.jNum 0) = .jStr s := by simp [getD, hc]
    simp [normalizeJsonRecord, h1, pyFloat, hp]
  · intro row i now s hc hp
    simp [normalizeSheetRow, sheetCost, hc, notna, pyFloatCell, hp]

/-- C2, witness: the amended failure rule applied to concrete inputs on both
paths — the JSON record `{"cost":"x"}` and a tabular row whose `call_cost`
column holds `"x"` both fail with the respective coercion error. -/
theorem claim2_witness :
    normalizeJsonRecord (.jObj [("cost", .jStr "x")]) 0 0 "W"
      = .error .processingError ∧
    normalizeSheetRow [("call_cost", Cell.cStr "x")] 0 "W" = .error () := by
  constructor
  · exact claim2_theorem.2.2.1 [("cost", .jStr "x")] 0 0 "W" "x" rfl
      (by simp [parseFloat, show parseFloatParts "x" = none from by decide])
  · exact claim2_theorem.2.2.2 [("call_cost", Cell.cStr "x")] 0 "W" "x" rfl
      (by simp [parseFloat, show parseFloatParts "x" = none from by decide])

/-- C3, counterexample: the JSON path passes a negative input cost straight
through `float(...)`, so importing `{"call_id":"A","cost":-5}` produces a
record whose `cost` is negative, contradicting the non-negativity claim. -/
theorem claim3_counterexample :
    ((importJson (.jObj [("call_id", .jStr "A"), ("cost", .jNum (-5))]) []
        "T").1.map CallRecord.cost) = [(-5 : ℚ)] ∧ ¬ (0 : ℚ) ≤ (-5 : ℚ) := by
  constructor
  · simp [importJson, dispatchJson, pyIter, importLoop, normalizeJsonRecord,
      getD, getKey, pyFloat]
  · norm_num

/-- C3, amended: the normalized `cost` is non-negative on the manual path
(whose widget enforces a non-negative value) and whenever `cost` is absent
from the raw input (defaulting to 0.0); the JSON and tabular paths pass a
present numeric value through unchanged, negative values included. -/
theorem claim3_theorem :
    (∀ t r s (q : ℚ) cn sa ea cid coll now rec, 0 ≤ q →
      addManual t r s q cn sa ea cid coll now = coll ++ [rec] →
      0 ≤ rec.cost) ∧
    (∀ fs L c now, getKey fs "cost" = none →
      (normalizeJsonRecord (.jObj fs) L c now).map CallRecord.cost
        = .ok (0 : ℚ)) ∧
    (∀ row i now, aliasGet row "cost" "call_cost" = none →
      (normalizeSheetRow row i now).map CallRecord.cost = .ok (0 : ℚ)) ∧
    (∀ fs L c now (q : ℚ), getKey fs "cost" = some (.jNum q) →
      (normalizeJsonRecord (.jObj fs) L c now).map CallRecord.cost = .ok q) ∧
    (∀ row i now (q : ℚ), aliasGet row "cost" "call_cost" = some (.cNum q) →
      (normalizeSheetRow row i now).map CallRecord.cost = .ok q) := by
  refine ⟨?_, ?_, ?_, ?_, ?_⟩
  · intro t r s q cn sa ea cid coll now rec hq heq
    rw [addManual] at heq
    have h2 := List.append_cancel_left heq
    simp only [List.cons.injEq, and_true] at h2
    rw [← h2]
    exact hq
  · intro fs L c now hc
    have h1 : getD fs "cost" (.jNum 0) = .jNum 0 := by simp [getD, hc]
    simp [normalizeJsonRecord, h1, pyFloat, Except.map]
  · intro row i now hc
    simp [normalizeSheetRow, sheetCost, hc, notna, Except.map]
  · intro fs L c now q hc
    have h1 : getD fs "cost" (.jNum 0) = .jNum q := by simp [getD, hc]
    simp [normalizeJsonRecord, h1, pyFloat, Except.map]
  · intro row i now q hc
    simp [normalizeSheetRow, sheetCost, hc, notna, pyFloatCell, Except.map]

/-- C3, witness: the amended non-negativity rule applied to a concrete manual
submission with cost 3/2. -/
theorem claim3_witness :
    0 ≤ ({ transcript := .jStr "a", recording_url := .jStr "b"
           call_summary := .jStr "c", cost := (3 / 2 : ℚ)
           customer_number := .jStr "d", started_at := .jStr "e"
           ended_at := .jStr "f", call_id := .jStr "g", added_at := "T"
           source := .manual } : CallRecord).cost :=
  claim3_theorem.1 "a" "b" "c" (3 / 2) "d" "e" "f" "g" [] "T" _
    (by norm_num) rfl

/-- C4, counterexample: importing the bare object `{"cost":"x"}` (a top-level
object, no `records` key) does not yield exactly one record — `float("x")`
raises while the single record is normalized, so the import inserts nothing
and reports the generic processing error. -/
theorem claim4_counterexample :
    importJson (.jObj [("cost", .jStr "x")]) [] "T"
      = ([], some .processingError) := rfl

/-- C4, amended: shape dispatch of the JSON import, for documents whose
entries all normalize successfully (each entry is a dict whose `cost`, if
present, coerces, i.e. `jsonRecordOk`) — a top-level array of N such entries
yields exactly N appended records; a dict whose `records` key holds an array
of N such entries yields exactly N; any other dict that itself normalizes
yields exactly one; a top-level number or string unconditionally reports the
format error and leaves the collection unchanged.  (An entry whose
normalization raises makes the import stop with the processing error
instead; see C10.) -/
theorem claim4_theorem :
    (∀ xs coll now, (∀ r ∈ xs, jsonRecordOk r = true) →
      (importJson (.jArr xs) coll now).1.length = coll.length + xs.length ∧
      (importJson (.jArr xs) coll now).2 = none) ∧
    (∀ fs ys coll now, getKey fs "records" = some (.jArr ys) →
      (∀ r ∈ ys, jsonRecordOk r = true) →
      (importJson (.jObj fs) coll now).1.length = coll.length + ys.length ∧
      (importJson (.jObj fs) coll now).2 = none) ∧
    (∀ fs coll now, getKey fs "records" = none →
      jsonRecordOk (.jObj fs) = true →
      (importJson (.jObj fs) coll now).1.length = coll.length + 1 ∧
      (importJson (.jObj fs) coll now).2 = none) ∧
    (∀ (q : ℚ) s coll now,
      importJson (.jNum q) coll now = (coll, some .formatError) ∧
      importJson (.jStr s) coll now = (coll, some .formatError)) := by
  refine ⟨?_, ?_, ?_, ?_⟩
  · intro xs coll now h
    have hl := importLoop_all_ok xs coll 0 now h
    simp only [importJson, dispatchJson, pyIter]
    exact ⟨hl.2.1, hl.1⟩
  · intro fs ys coll now hrec h
    have hl := importLoop_all_ok ys coll 0 now h
    simp only [importJson, dispatchJson, hrec, pyIter]
    exact ⟨hl.2.1, hl.1⟩
  · intro fs coll now hrec hok
    have hl := importLoop_all_ok [.jObj fs] coll 0 now (by simpa using hok)
    simp only [importJson, dispatchJson, hrec, pyIter]
    exact ⟨by simpa using hl.2.1, hl.1⟩
  · intro q s coll now
    exact ⟨rfl, rfl⟩

/-- C4, witness: importing the one-element array `[{"call_id":"B"}]` into an
empty collection yields a collection of length one and no error. -/
theorem claim4_witness :
    (importJson (.jArr [.jObj [("call_id", .jStr "B")]]) [] "W").1.length
      = ([] : List CallRecord).length + 1 ∧
    (importJson (.jArr [.jObj [("call_id", .jStr "B")]]) [] "W").2 = none := by
  have h := claim4_theorem.1 [.jObj [("call_id", .jStr "B")]] [] "W"
    (by intro r hr; simp at hr; subst hr; rfl)
  simpa using h

/-- C5, counterexample: on the JSON path a record lacking `transcript` gets
the empty string, not its `call_summary` value — importing
`{"call_id":"A","call_summary":"hi"}` yields `transcript == ""`. -/
theorem claim5_counterexample :
    ((importJson (.jObj [("call_id", .jStr "A"), ("call_summary", .jStr "hi")])
        [] "T").1.map CallRecord.transcript) = [.jStr ""] ∧
    JVal.jStr "" ≠ JVal.jStr "hi" := by
  constructor
  · simp [importJson, dispatchJson, pyIter, importLoop, normalizeJsonRecord,
      getD, getKey, pyFloat]
  · simp

/-- C5, amended: only the tabular path falls back to `call_summary` when
`transcript` is absent from the raw input; the JSON path defaults an absent
`transcript` to the empty string (and the manual path always supplies the
transcript field directly). -/
theorem claim5_theorem :
    (∀ row i now c (q : ℚ), rowGet row "transcript" = none →
      rowGet row "call_summary" = some c → sheetCost row = .ok q →
      (normalizeSheetRow row i now).map CallRecord.transcript
        = .ok (.jStr (pyStrCell c))) ∧
    (∀ fs L c now (q : ℚ), getKey fs "transcript" = none →
      pyFloat (getD fs "cost" (.jNum 0)) = some q →
      (normalizeJsonRecord (.jObj fs) L c now).map CallRecord.transcript
        = .ok (.jStr "")) := by
  constructor
  · intro row i now c q ht hs hq
    simp [normalizeSheetRow, hq, aliasGet, ht, hs, cellStrD, Except.map]
  · intro fs L c now q ht hq
    simp only [normalizeJsonRecord, hq]
    simp [getD, ht, Except.map]

/-- C5, witness: the tabular fallback applied to the concrete row
`{"call_summary": "hi"}`. -/
theorem claim5_witness :
    (normalizeSheetRow [("call_summary", Cell.cStr "hi")] 0 "W").map
      CallRecord.transcript = .ok (.jStr "hi") := by
  have h := claim5_theorem.1 [("call_summary", Cell.cStr "hi")] 0 "W"
    (Cell.cStr "hi") 0 rfl rfl rfl
  simpa [pyStrCell] using h

/-- C6: a manual form submission with an empty `call_id` always appends
exactly one record whose generated id is `"ID"` followed by the current
collection size plus one zero-padded to 4 digits, with every other submitted
field passed through unchanged, `added_at` set to the submission time and
`source` fixed to `manual`. -/
theorem claim6_theorem :
    ∀ t r s (q : ℚ) cn sa ea coll now,
    addManual t r s q cn sa ea "" coll now
      = coll ++ [{ transcript := .jStr t, recording_url := .jStr r
                   call_summary := .jStr s, cost := q
                   customer_number := .jStr cn, started_at := .jStr sa
                   ended_at := .jStr ea
                   call_id := .jStr ("ID" ++ zpad4 (coll.length + 1))
                   added_at := now, source := .manual }] := by
  intro t r s q cn sa ea coll now
  simp [addManual]

/-- C7: tabular ingestion reads each canonical field through its alias
(`transcript` falls back to `call_summary`, `cost` to `call_cost`,
`customer_number` to `"phone number"`, `started_at` to `call_start_time`,
`ended_at` to `call_end_time`), prefers a present primary `cost`, and
generates `"SHEET" + zero-padded(row index in batch + 1)` for a row lacking
`call_id`; the row `{"phone number": "+15550100", "call_cost": "9.99"}`
yields `customer_number "+15550100"`, `cost 9.99` and id `"SHEET0001"`. -/
theorem claim7_theorem :
    (∀ row i now (q : ℚ), rowGet row "call_id" = none →
      sheetCost row = .ok q →
      (normalizeSheetRow row i now).map CallRecord.call_id
        = .ok (.jStr ("SHEET" ++ zpad4 (i + 1)))) ∧
    (∀ row i now c (q : ℚ), rowGet row "transcript" = none →
      rowGet row "call_summary" = some c → sheetCost row = .ok q →
      (normalizeSheetRow row i now).map CallRecord.transcript
        = .ok (.jStr (pyStrCell c))) ∧
    (∀ row i now s (q : ℚ), rowGet row "cost" = none →
      rowGet row "call_cost" = some (.cStr s) → parseFloat s = some q →
      (normalizeSheetRow row i now).map CallRecord.cost = .ok q) ∧
    (∀ row i now (q : ℚ), rowGet row "cost" = some (.cNum q) →
      (normalizeSheetRow row i now).map CallRecord.cost = .ok q) ∧
    (∀ row i now c (q : ℚ), rowGet row "customer_number" = none →
      rowGet row "phone number" = some c → sheetCost row = .ok q →
      (normalizeSheetRow row i now).map CallRecord.customer_number
        = .ok (.jStr (pyStrCell c))) ∧
    (∀ row i now c (q : ℚ), rowGet row "started_at" = none →
      rowGet row "call_start_time" = some c → sheetCost row = .ok q →
      (normalizeSheetRow row i now).map CallRecord.started_at
        = .ok (.jStr (pyStrCell c))) ∧
    (∀ row i now c (q : ℚ), rowGet row "ended_at" = none →
      rowGet row "call_end_time" = some c → sheetCost row = .ok q →
      (normalizeSheetRow row i now).map CallRecord.ended_at
        = .ok (.jStr (pyStrCell c))) ∧
    (∀ now, (convert_sheets_to_records
        [[("phone number", .cStr "+15550100"), ("call_cost", .cStr "9.99")]]
        now).map (fun l => l.map fun r => (r.customer_number, r.cost, r.call_id))
      = .ok [(.jStr "+15550100", (999 / 100 : ℚ), .jStr "SHEET0001")]) := by
  refine ⟨?_, ?_, ?_, ?_, ?_, ?_, ?_, ?_⟩
  · intro row i now q hid hq
    simp [normalizeSheetRow, hq, hid, Except.map]
  · intro row i now c q ht hs hq
    simp [normalizeSheetRow, hq, aliasGet, ht, hs, cellStrD, Except.map]
  · intro row i now s q hc ha hp
    simp [normalizeSheetRow, sheetCost, aliasGet, hc, ha, notna,
      pyFloatCell, hp, Except.map]
  · intro row i now q hc
    simp [normalizeSheetRow, sheetCost, aliasGet, hc, notna,
      pyFloatCell, Except.map]
  · intro row i now c q hn hp hq
    simp [normalizeSheetRow, hq, aliasGet, hn, hp, cellStrD, Except.map]
  · intro row i now c q hs hp hq
    simp [normalizeSheetRow, hq, aliasGet, hs, hp, cellStrD, Except.map]
  · intro row i now c q he hp hq
    simp [normalizeSheetRow, hq, aliasGet, he, hp, cellStrD, Except.map]
  · intro now
    simp [convert_sheets_to_records, convertSheetsLoop, normalizeSheetRow,
      sheetCost, aliasGet, rowGet, notna, pyFloatCell, pyStrCell, cellStrD,
      parseFloat, show parseFloatParts "9.99" = some (999, 2) from by decide,
      show zpad4 1 = "0001" from rfl, Except.map]
    norm_num

/-- C7, witness: the id-generation conjunct applied to the concrete row
`{"transcript": "x"}` at batch index 4 yields `"SHEET0005"`. -/
theorem claim7_witness :
    (normalizeSheetRow [("transcript", Cell.cStr "x")] 4 "W").map
      CallRecord.call_id = .ok (.jStr "SHEET0005") := by
  have h := claim7_theorem.1 [("transcript", Cell.cStr "x")] 4 "W" 0 rfl rfl
  simpa [show zpad4 5 = "0005" from rfl] using h

/-- C8: on every path the normalizer sets `added_at` to the ingestion time —
no value from the raw input is consulted — and `source` is exactly the tag of
the producing path: `manual`, `json_upload` or `google_sheets`. -/
theorem claim8_theorem :
    (∀ t r s (q : ℚ) cn sa ea cid coll now rec,
      addManual t r s q cn sa ea cid coll now = coll ++ [rec] →
      rec.added_at = now ∧ rec.source = .manual) ∧
    (∀ r L c now rec, normalizeJsonRecord r L c now = .ok rec →
      rec.added_at = now ∧ rec.source = .json_upload) ∧
    (∀ row i now rec, normalizeSheetRow row i now = .ok rec →
      rec.added_at = now ∧ rec.source = .google_sheets) := by
  refine ⟨?_, ?_, ?_⟩
  · intro t r s q cn sa ea cid coll now rec heq
    rw [addManual] at heq
    have h2 := List.append_cancel_left heq
    simp only [List.cons.injEq, and_true] at h2
    rw [← h2]
    exact ⟨rfl, rfl⟩
  · intro r L c now rec h
    cases r with
    | jObj fs =>
        cases hq : pyFloat (getD fs "cost" (.jNum 0)) with
        | none => simp [normalizeJsonRecord, hq] at h
        | some q =>
            simp only [normalizeJsonRecord, hq, Except.ok.injEq] at h
            rw [← h]
            exact ⟨rfl, rfl⟩
    | jNull => simp [normalizeJsonRecord] at h
    | jBool b => simp [normalizeJsonRecord] at h
    | jNum q => simp [normalizeJsonRecord] at h
    | jStr s => simp [normalizeJsonRecord] at h
    | jArr xs => simp [normalizeJsonRecord] at h
  · intro row i now rec h
    cases hq : sheetCost row with
    | error e => simp [normalizeSheetRow, hq] at h
    | ok q =>
        simp only [normalizeSheetRow, hq, Except.ok.injEq] at h
        rw [← h]
        exact ⟨rfl, rfl⟩

/-- C8, witness: the JSON conjunct applied to the empty raw record at
ingestion time `"W"`. -/
theorem claim8_witness :
    ({ transcript := .jStr "", recording_url := .jStr ""
       call_summary := .jStr "", cost := 0, customer_number := .jStr ""
       started_at := .jStr "", ended_at := .jStr ""
       call_id := .jStr "JSON0001", added_at := "W"
       source := .json_upload } : CallRecord).added_at = "W" ∧
    ({ transcript := .jStr "", recording_url := .jStr ""
       call_summary := .jStr "", cost := 0, customer_number := .jStr ""
       started_at := .jStr "", ended_at := .jStr ""
       call_id := .jStr "JSON0001", added_at := "W"
       source := .json_upload } : CallRecord).source = .json_upload :=
  claim8_theorem.2.1 (.jObj []) 0 0 "W" _ rfl

/-- C9, counterexample: importing `{"records": 5}` does not fail with the
format error — the dispatch accepts any dict with a `records` key — but with
the generic processing error raised when the loop tries to iterate the
number. -/
theorem claim9_counterexample :
    importJson (.jObj [("records", .jNum 5)]) [] "T"
      = ([], some .processingError) ∧
    JsonImportError.processingError ≠ JsonImportError.formatError :=
  ⟨rfl, by decide⟩

/-- C9, amended: for a mapping whose `records` key holds a non-sequence
value, the import never reports the format error and never inserts a record:
non-iterable values (numbers, booleans, null) and nonempty strings or
mappings fail with the generic processing error, while an empty string or
empty mapping imports zero records without error. -/
theorem claim9_theorem :
    ∀ fs v coll now, getKey fs "records" = some v → (∀ xs, v ≠ .jArr xs) →
    (importJson (.jObj fs) coll now).1 = coll ∧
    (importJson (.jObj fs) coll now).2 ≠ some .formatError := by
  intro fs v coll now hrec hv
  simp only [importJson, dispatchJson, hrec]
  cases v with
  | jArr xs => exact absurd rfl (hv xs)
  | jNull => simp [pyIter]
  | jBool b => simp [pyIter]
  | jNum q => simp [pyIter]
  | jStr s =>
      simp only [pyIter]
      cases hd : s.data with
      | nil => simp [importLoop]
      | cons ch cs =>
          rw [List.map_cons, importLoop_cons_err (.jStr (String.mk [ch])) _
            coll 0 now .processingError rfl]
          simp
  | jObj fs' =>
      simp only [pyIter]
      cases fs' with
      | nil => simp [importLoop]
      | cons kv rest =>
          rw [List.map_cons, importLoop_cons_err (.jStr kv.1) _
            coll 0 now .processingError rfl]
          simp

/-- C9, witness: the amended rule applied to the concrete document
`{"records": "z"}` — collection unchanged and no format error. -/
theorem claim9_witness :
    (importJson (.jObj [("records", .jStr "z")]) [] "W").1
      = ([] : List CallRecord) ∧
    (importJson (.jObj [("records", .jStr "z")]) [] "W").2
      ≠ some .formatError :=
  claim9_theorem [("records", .jStr "z")] (.jStr "z") [] "W" rfl
    (fun _ h => JVal.noConfusion h)

/-- C10: the JSON batch import is not atomic — when the records of a batch
are a well-formed prefix followed by a record whose normalization raises
(e.g. a non-numeric `cost`), the import reports the processing error, yet
exactly the prefix's records have been appended and the preexisting
collection prefix is intact. -/
theorem claim10_theorem :
    ∀ good bad rest coll now,
    (∀ r ∈ good, jsonRecordOk r = true) → jsonRecordOk bad = false →
    (importJson (.jArr (good ++ bad :: rest)) coll now).2
      = some .processingError ∧
    (importJson (.jArr (good ++ bad :: rest)) coll now).1.length
      = coll.length + good.length ∧
    (importJson (.jArr (good ++ bad :: rest)) coll now).1.take coll.length
      = coll := by
  intro good bad rest coll now hgood hbad
  simp only [importJson, dispatchJson, pyIter]
  exact importLoop_partial_fail good bad rest coll 0 now hgood hbad

/-- C10, witness: importing `[{"call_id":"G"}, {"cost":"zz"}]` into an empty
collection reports the processing error with exactly one record (the first)
inserted. -/
theorem claim10_witness :
    (importJson (.jArr [.jObj [("call_id", .jStr "G")],
        .jObj [("cost", .jStr "zz")]]) [] "W").2 = some .processingError ∧
    (importJson (.jArr [.jObj [("call_id", .jStr "G")],
        .jObj [("cost", .jStr "zz")]]) [] "W").1.length = 1 := by
  have h := claim10_theorem [.jObj [("call_id", .jStr "G")]]
    (.jObj [("cost", .jStr "zz")]) [] [] "W"
    (by intro r hr; simp at hr; subst hr; rfl) rfl
  simp only [List.cons_append, List.nil_append] at h
  exact ⟨h.1, by simpa using h.2.1⟩
